import Mathlib

/-
  Shallow embedding of the Corsair Void HID driver core
  (corsair-void.c, workqueue revision: corsair_void_set_unknown_batt,
  corsair_void_set_unknown_data, corsair_void_process_receiver,
  corsair_void_raw_event, corsair_void_send_alert,
  corsair_void_send_sidetone, corsair_void_headset_connected,
  corsair_void_headset_disconnected, corsair_void_probe,
  corsair_void_remove).

  Machine integers are modelled as Nat; report bytes are Nat values
  read with List.getD; C int flags holding only 0 or 1 are modelled
  as Bool.  Work-queue side effects are modelled as explicit lists of
  WorkItem values emitted by a step.
-/

namespace CorsairVoid

/-- Kernel power-supply status constants used by the driver
(POWER_SUPPLY_STATUS_UNKNOWN / DISCHARGING / CHARGING / FULL). -/
inductive PowerSupplyStatus
  | unknown
  | discharging
  | charging
  | full
deriving DecidableEq, Repr

/-- Kernel capacity-level constants used by the driver
(POWER_SUPPLY_CAPACITY_LEVEL_UNKNOWN / CRITICAL / LOW / NORMAL). -/
inductive PowerSupplyCapacityLevel
  | unknown
  | critical
  | low
  | normal
deriving DecidableEq, Repr

/-- struct corsair_void_battery_data. -/
structure BatteryData where
  status : PowerSupplyStatus
  present : Bool
  capacity : Nat
  capacity_level : PowerSupplyCapacityLevel
deriving DecidableEq, Repr

/-- The state-carrying fields of struct corsair_void_drvdata.
battery_registered models whether drvdata.battery is non-NULL
(a power supply object is currently registered). -/
structure Drvdata where
  battery_data : BatteryData
  mic_up : Bool
  connected : Bool
  fw_receiver_major : Nat
  fw_receiver_minor : Nat
  fw_headset_major : Nat
  fw_headset_minor : Nat
  battery_registered : Bool
deriving DecidableEq, Repr

/-- The all-unknown battery record written by corsair_void_set_unknown_batt. -/
def unknownBatt : BatteryData :=
  { status := .unknown
    present := false
    capacity := 0
    capacity_level := .unknown }

/-- corsair_void_set_unknown_batt: reset the battery record to all-unknown. -/
def corsair_void_set_unknown_batt (d : Drvdata) : Drvdata :=
  { d with battery_data := unknownBatt }

/-- corsair_void_set_unknown_data: zero the headset firmware pair and clear
the connected and mic flags.  The receiver firmware pair is deliberately
left alone (see the comment in the source). -/
def corsair_void_set_unknown_data (d : Drvdata) : Drvdata :=
  { d with
    fw_headset_major := 0
    fw_headset_minor := 0
    connected := false
    mic_up := false }

/-- The battery record computed by corsair_void_process_receiver from the
raw capacity, connection status and battery status arguments.  Mirrors the
goto structure of the source: connection not 177 or battery status 0 or an
unrecognised battery status all land on the unknown_battery label; the
switch cases 1/2/3 give DISCHARGING with the level override for 2 and 3,
case 4 gives FULL, case 5 gives CHARGING, and capacity is written from
raw_battery_capacity on every recognised branch. -/
def newBatteryData (raw_battery_capacity raw_connection_status raw_battery_status : Nat) :
    BatteryData :=
  if raw_connection_status ≠ 177 then
    unknownBatt
  else if raw_battery_status = 0 then
    unknownBatt
  else if raw_battery_status = 1 then
    { status := .discharging, present := true,
      capacity := raw_battery_capacity, capacity_level := .normal }
  else if raw_battery_status = 2 then
    { status := .discharging, present := true,
      capacity := raw_battery_capacity, capacity_level := .low }
  else if raw_battery_status = 3 then
    { status := .discharging, present := true,
      capacity := raw_battery_capacity, capacity_level := .critical }
  else if raw_battery_status = 4 then
    { status := .full, present := true,
      capacity := raw_battery_capacity, capacity_level := .normal }
  else if raw_battery_status = 5 then
    { status := .charging, present := true,
      capacity := raw_battery_capacity, capacity_level := .normal }
  else
    unknownBatt

/-- corsair_void_process_receiver: save the original battery record, compute
the new one, and call power_supply_changed exactly when the memcmp of the
two records reports a difference and drvdata.battery is non-NULL.  The Bool
component is true when power_supply_changed was called. -/
def corsair_void_process_receiver (d : Drvdata)
    (raw_battery_capacity raw_connection_status raw_battery_status : Nat) :
    Drvdata × Bool :=
  let orig_battery_data := d.battery_data
  let battery_data :=
    newBatteryData raw_battery_capacity raw_connection_status raw_battery_status
  let notified := decide (battery_data ≠ orig_battery_data) && d.battery_registered
  ({ d with battery_data := battery_data }, notified)

/-- The four work items of struct corsair_void_drvdata. -/
inductive WorkItem
  | battery_add_work
  | battery_remove_work
  | delayed_status_work
  | delayed_firmware_work
deriving DecidableEq, Repr

/-- corsair_void_headset_connected: schedule battery_add_work and the
(100ms-delayed) delayed_firmware_work. -/
def corsair_void_headset_connected : List WorkItem :=
  [.battery_add_work, .delayed_firmware_work]

/-- corsair_void_headset_disconnected: schedule battery_remove_work, then
synchronously run corsair_void_set_unknown_data and
corsair_void_set_unknown_batt. -/
def corsair_void_headset_disconnected (d : Drvdata) : Drvdata × List WorkItem :=
  (corsair_void_set_unknown_batt (corsair_void_set_unknown_data d),
   [.battery_remove_work])

/-- CORSAIR_VOID_BATTERY_REPORT_ID. -/
def CORSAIR_VOID_BATTERY_REPORT_ID : Nat := 0x64

/-- CORSAIR_VOID_FIRMWARE_REPORT_ID. -/
def CORSAIR_VOID_FIRMWARE_REPORT_ID : Nat := 0x66

/-- corsair_void_raw_event: decode one inbound report.  For the battery
report id, mic_up is FIELD_GET of bit 7 of data[2], connected is the test
data[3] == 177, and corsair_void_process_receiver runs on FIELD_GET of
bits 6..0 of data[2], data[3] and data[4].  For the firmware report id the
four firmware fields are written from data[1..4].  Afterwards a change of
the connected flag runs the connect or disconnect handler.  Result:
(new state, power_supply_changed fired, work items scheduled).  The source
performs no check of the buffer length; out-of-range indices read 0 here. -/
def corsair_void_raw_event (d : Drvdata) (report_id : Nat) (data : List Nat) :
    Drvdata × Bool × List WorkItem :=
  let was_connected := d.connected
  let step :=
    if report_id = CORSAIR_VOID_BATTERY_REPORT_ID then
      let d1 := { d with
                  mic_up := (data.getD 2 0).testBit 7
                  connected := data.getD 3 0 == 177 }
      corsair_void_process_receiver d1
        ((data.getD 2 0) &&& 127) (data.getD 3 0) (data.getD 4 0)
    else if report_id = CORSAIR_VOID_FIRMWARE_REPORT_ID then
      ({ d with
         fw_receiver_major := data.getD 1 0
         fw_receiver_minor := data.getD 2 0
         fw_headset_major := data.getD 3 0
         fw_headset_minor := data.getD 4 0 }, false)
    else
      (d, false)
  let d2 := step.1
  let notified := step.2
  if was_connected ≠ d2.connected then
    if d2.connected then
      (d2, notified, corsair_void_headset_connected)
    else
      let down := corsair_void_headset_disconnected d2
      (down.1, notified, down.2)
  else
    (d2, notified, [])

/-- The Drvdata contents established by corsair_void_probe:
devm_kzalloc zeroes the structure, corsair_void_set_unknown_data and
corsair_void_set_unknown_batt set the unknown sentinels, the receiver
firmware pair is set to 0 and drvdata.battery starts NULL. -/
def corsair_void_probe_drvdata : Drvdata :=
  { battery_data := unknownBatt
    mic_up := false
    connected := false
    fw_receiver_major := 0
    fw_receiver_minor := 0
    fw_headset_major := 0
    fw_headset_minor := 0
    battery_registered := false }

/-- The delayed work items scheduled at the end of corsair_void_probe:
delayed_status_work and delayed_firmware_work, each after 100ms. -/
def corsair_void_probe_scheduled : List WorkItem :=
  [.delayed_status_work, .delayed_firmware_work]

/-- The work items cancelled synchronously by corsair_void_remove:
cancel_work_sync on battery_remove_work and battery_add_work and
cancel_delayed_work_sync on delayed_firmware_work.  delayed_status_work is
not cancelled anywhere in corsair_void_remove. -/
def corsair_void_remove_cancelled : List WorkItem :=
  [.battery_remove_work, .battery_add_work, .delayed_firmware_work]

/-- Errors surfaced by the sysfs command entry points: -ENODEV when the
headset is not connected, -EINVAL for an out-of-range argument. -/
inductive CmdError
  | notConnected
  | invalidArgument
deriving DecidableEq, Repr

/-- corsair_void_send_alert: reject with -ENODEV when not connected, with
-EINVAL when the parsed alert id is 2 or more, otherwise hand the 3-byte
buffer [0xCA, 0x02, alert_id] to the transport.  The state is returned
unchanged: the function never writes drvdata. -/
def corsair_void_send_alert (d : Drvdata) (alert_id : Nat) :
    Drvdata × Except CmdError (List Nat) :=
  if d.connected = false then
    (d, .error .notConnected)
  else if 2 ≤ alert_id then
    (d, .error .invalidArgument)
  else
    (d, .ok [0xCA, 0x02, alert_id])

/-- corsair_void_send_sidetone: reject with -ENODEV when not connected,
with -EINVAL when the parsed level exceeds 55, otherwise build the 64-byte
kzalloc-zeroed buffer, write the 11 header bytes and sidetone + 200 at
index 11, and hand it to the transport.  The state is returned unchanged. -/
def corsair_void_send_sidetone (d : Drvdata) (sidetone : Nat) :
    Drvdata × Except CmdError (List Nat) :=
  if d.connected = false then
    (d, .error .notConnected)
  else if 55 < sidetone then
    (d, .error .invalidArgument)
  else
    let buf := List.replicate 64 0
    let buf := (((((((((((buf.set 0 0xFF).set 1 0x0B).set 2 0x00).set 3
        0xFF).set 4 0x04).set 5 0x0E).set 6 0xFF).set 7 0x05).set 8
        0x01).set 9 0x04).set 10 0x00).set 11 (sidetone + 200)
    (d, .ok buf)

end CorsairVoid

namespace CorsairVoid

/- Helper lemmas about newBatteryData, shared by several theorems. -/

lemma newBatteryData_of_not_conn (cap conn status : Nat) (h : conn ≠ 177) :
    newBatteryData cap conn status = unknownBatt := by
  unfold newBatteryData
  simp [h]

lemma newBatteryData_eq_unknown_iff (cap conn status : Nat) :
    newBatteryData cap conn status = unknownBatt ↔
      (conn ≠ 177 ∨ status = 0 ∨
        ¬(status = 1 ∨ status = 2 ∨ status = 3 ∨ status = 4 ∨ status = 5)) := by
  unfold newBatteryData
  split_ifs with h1 h2 h3 h4 h5 h6 h7 <;> simp_all [unknownBatt]

/-- Claim C1: the decoded battery record is set to all-unknown (present
false, status Unknown, capacity 0, capacity_level Unknown) exactly when the
connection code differs from 177, or the battery status code is 0, or the
battery status code is outside 1..5; and any connection code other than 177
forces present = false and capacity = 0 whatever the battery status code. -/
theorem process_receiver_unknown_iff (d : Drvdata) (cap conn status : Nat) :
    ((corsair_void_process_receiver d cap conn status).1.battery_data = unknownBatt ↔
      (conn ≠ 177 ∨ status = 0 ∨
        ¬(status = 1 ∨ status = 2 ∨ status = 3 ∨ status = 4 ∨ status = 5))) ∧
    (conn ≠ 177 →
      (corsair_void_process_receiver d cap conn status).1.battery_data.present = false ∧
      (corsair_void_process_receiver d cap conn status).1.battery_data.capacity = 0) := by
  constructor
  · simpa [corsair_void_process_receiver] using
      newBatteryData_eq_unknown_iff cap conn status
  · intro h
    simp [corsair_void_process_receiver, newBatteryData_of_not_conn cap conn status h,
          unknownBatt]

/-- Witness for process_receiver_unknown_iff at conn = 51, status = 5. -/
theorem process_receiver_unknown_iff_witness :
    (51 ≠ 177 ∧
      (corsair_void_process_receiver corsair_void_probe_drvdata 80 51 5).1.battery_data
        = unknownBatt) ∧
    (corsair_void_process_receiver corsair_void_probe_drvdata 80 51 5).1.battery_data.present
        = false ∧
    (corsair_void_process_receiver corsair_void_probe_drvdata 80 51 5).1.battery_data.capacity
        = 0 := by
  have h := process_receiver_unknown_iff corsair_void_probe_drvdata 80 51 5
  exact ⟨⟨by decide, h.1.mpr (by decide)⟩, h.2 (by decide)⟩

/-- Claim C9: corsair_void_probe schedules delayed_status_work, but
corsair_void_remove cancels only battery_remove_work, battery_add_work and
delayed_firmware_work, so the pending delayed status query is not cancelled
on unbind. -/
theorem remove_leaves_delayed_status_work :
    WorkItem.delayed_status_work ∈ corsair_void_probe_scheduled ∧
    WorkItem.delayed_status_work ∉ corsair_void_remove_cancelled ∧
    WorkItem.battery_remove_work ∈ corsair_void_remove_cancelled ∧
    WorkItem.battery_add_work ∈ corsair_void_remove_cancelled ∧
    WorkItem.delayed_firmware_work ∈ corsair_void_remove_cancelled := by
  decide

/-- Claim C10: the disconnect handler rewrites exactly the headset firmware
pair, the connected flag, the mic flag and the battery record; the receiver
firmware pair and the battery registration handle are untouched. -/
theorem headset_disconnected_frame (d : Drvdata) :
    (corsair_void_headset_disconnected d).1 =
      { d with
        battery_data := unknownBatt
        mic_up := false
        connected := false
        fw_headset_major := 0
        fw_headset_minor := 0 } ∧
    (corsair_void_headset_disconnected d).1.fw_receiver_major = d.fw_receiver_major ∧
    (corsair_void_headset_disconnected d).1.fw_receiver_minor = d.fw_receiver_minor ∧
    (corsair_void_headset_disconnected d).1.battery_registered = d.battery_registered := by
  exact ⟨rfl, rfl, rfl, rfl⟩

end CorsairVoid

namespace CorsairVoid

lemma raw_event_battery_data (d : Drvdata) (data : List Nat) :
    (corsair_void_raw_event d CORSAIR_VOID_BATTERY_REPORT_ID data).1.battery_data =
      newBatteryData ((data.getD 2 0) &&& 127) (data.getD 3 0) (data.getD 4 0) := by
  unfold corsair_void_raw_event
  rw [if_pos rfl]
  generalize data.getD 2 0 = b2
  generalize data.getD 3 0 = b3
  generalize data.getD 4 0 = b4
  by_cases h : b3 = 177
  · subst h
    cases hc : d.connected <;>
      simp [corsair_void_process_receiver, hc]
  · have hb : (b3 == 177) = false := beq_eq_false_iff_ne.mpr h
    cases hc : d.connected <;>
      simp [corsair_void_process_receiver, hb, hc, h, corsair_void_headset_disconnected,
            corsair_void_set_unknown_batt, corsair_void_set_unknown_data,
            newBatteryData, unknownBatt]


lemma raw_event_battery_full (d : Drvdata) (data : List Nat) :
    corsair_void_raw_event d CORSAIR_VOID_BATTERY_REPORT_ID data =
      (if data.getD 3 0 = 177 then
        ({ d with
            battery_data :=
              newBatteryData ((data.getD 2 0) &&& 127) (data.getD 3 0) (data.getD 4 0)
            mic_up := (data.getD 2 0).testBit 7
            connected := true },
         decide (newBatteryData ((data.getD 2 0) &&& 127) (data.getD 3 0) (data.getD 4 0)
             ≠ d.battery_data) && d.battery_registered,
         if d.connected then [] else corsair_void_headset_connected)
      else if d.connected then
        ({ d with
            battery_data := unknownBatt
            mic_up := false
            connected := false
            fw_headset_major := 0
            fw_headset_minor := 0 },
         decide (newBatteryData ((data.getD 2 0) &&& 127) (data.getD 3 0) (data.getD 4 0)
             ≠ d.battery_data) && d.battery_registered,
         [WorkItem.battery_remove_work])
      else
        ({ d with
            battery_data := unknownBatt
            mic_up := (data.getD 2 0).testBit 7
            connected := false },
         decide (newBatteryData ((data.getD 2 0) &&& 127) (data.getD 3 0) (data.getD 4 0)
             ≠ d.battery_data) && d.battery_registered,
         [])) := by
  unfold corsair_void_raw_event
  rw [if_pos rfl]
  generalize data.getD 2 0 = b2
  generalize data.getD 3 0 = b3
  generalize data.getD 4 0 = b4
  by_cases h : b3 = 177
  · subst h
    cases hc : d.connected <;>
      simp [corsair_void_process_receiver, hc]
  · have hb : (b3 == 177) = false := beq_eq_false_iff_ne.mpr h
    cases hc : d.connected <;>
      simp [corsair_void_process_receiver, hb, hc, h, corsair_void_headset_disconnected,
            corsair_void_set_unknown_batt, corsair_void_set_unknown_data,
            newBatteryData, unknownBatt]


lemma raw_event_firmware_eq (d : Drvdata) (data : List Nat) :
    corsair_void_raw_event d CORSAIR_VOID_FIRMWARE_REPORT_ID data =
      ({ d with
          fw_receiver_major := data.getD 1 0
          fw_receiver_minor := data.getD 2 0
          fw_headset_major := data.getD 3 0
          fw_headset_minor := data.getD 4 0 }, false, []) := by
  unfold corsair_void_raw_event
  simp [CORSAIR_VOID_BATTERY_REPORT_ID, CORSAIR_VOID_FIRMWARE_REPORT_ID]

lemma raw_event_other_eq (d : Drvdata) (report_id : Nat) (data : List Nat)
    (h1 : report_id ≠ CORSAIR_VOID_BATTERY_REPORT_ID)
    (h2 : report_id ≠ CORSAIR_VOID_FIRMWARE_REPORT_ID) :
    corsair_void_raw_event d report_id data = (d, false, []) := by
  unfold corsair_void_raw_event
  simp [h1, h2]

lemma newBatteryData_capacity_le (cap conn status : Nat) (h : cap ≤ 127) :
    (newBatteryData cap conn status).capacity ≤ 127 := by
  unfold newBatteryData
  split_ifs <;> simp [unknownBatt, h]

lemma raw_event_battery_connected (d : Drvdata) (data : List Nat) :
    (corsair_void_raw_event d CORSAIR_VOID_BATTERY_REPORT_ID data).1.connected =
      (data.getD 3 0 == 177) := by
  simp only [raw_event_battery_full]
  generalize data.getD 3 0 = b3
  by_cases h : b3 = 177
  · simp [h]
  · have hb : (b3 == 177) = false := beq_eq_false_iff_ne.mpr h
    by_cases hc : d.connected = true <;> simp [h, hb, hc]

/-- Claim C2: a battery report with connection code 177 and battery status
code in 1..5 yields present = true, capacity = bits 6..0 of byte 2, status
Discharging for codes 1..3, Full for 4, Charging for 5, and capacity level
Low for code 2, Critical for code 3, Normal for the rest. -/
theorem raw_event_connected_battery_mapping (d : Drvdata) (data : List Nat)
    (hconn : data.getD 3 0 = 177)
    (hst : data.getD 4 0 = 1 ∨ data.getD 4 0 = 2 ∨ data.getD 4 0 = 3 ∨
      data.getD 4 0 = 4 ∨ data.getD 4 0 = 5) :
    (corsair_void_raw_event d CORSAIR_VOID_BATTERY_REPORT_ID data).1.battery_data =
      { status :=
          if data.getD 4 0 = 4 then PowerSupplyStatus.full
          else if data.getD 4 0 = 5 then PowerSupplyStatus.charging
          else PowerSupplyStatus.discharging
        present := true
        capacity := (data.getD 2 0) &&& 127
        capacity_level :=
          if data.getD 4 0 = 2 then PowerSupplyCapacityLevel.low
          else if data.getD 4 0 = 3 then PowerSupplyCapacityLevel.critical
          else PowerSupplyCapacityLevel.normal } := by
  rw [raw_event_battery_data, hconn]
  rcases hst with h | h | h | h | h <;> rw [h] <;> simp [newBatteryData]

/-- Witness: report bytes [100, 0, 53, 177, 5] give a charging, present
battery at capacity 53 with a normal capacity level. -/
theorem raw_event_connected_battery_mapping_witness :
    ([100, 0, 53, 177, 5] : List Nat).getD 3 0 = 177 ∧
    (corsair_void_raw_event corsair_void_probe_drvdata CORSAIR_VOID_BATTERY_REPORT_ID
        [100, 0, 53, 177, 5]).1.battery_data =
      { status := PowerSupplyStatus.charging
        present := true
        capacity := 53
        capacity_level := PowerSupplyCapacityLevel.normal } :=
  ⟨by decide,
   (raw_event_connected_battery_mapping corsair_void_probe_drvdata [100, 0, 53, 177, 5]
      (by decide) (by decide)).trans (by decide)⟩

/-- Counterexample to claim C3: with no battery object registered (the
state corsair_void_probe leaves behind), the battery record changes but
power_supply_changed does not fire. -/
theorem process_receiver_notify_counterexample :
    (corsair_void_process_receiver corsair_void_probe_drvdata 50 177 1).1.battery_data ≠
      corsair_void_probe_drvdata.battery_data ∧
    (corsair_void_process_receiver corsair_void_probe_drvdata 50 177 1).2 = false := by
  decide

/-- Claim C3 as amended: power_supply_changed fires iff the new battery
record differs from the previous one and a battery object is registered;
and feeding the identical battery report twice in a row never fires it the
second time. -/
theorem process_receiver_notify_iff (d : Drvdata) (cap conn status : Nat)
    (data : List Nat) :
    ((corsair_void_process_receiver d cap conn status).2 = true ↔
      ((corsair_void_process_receiver d cap conn status).1.battery_data ≠ d.battery_data ∧
        d.battery_registered = true)) ∧
    (corsair_void_raw_event
        (corsair_void_raw_event d CORSAIR_VOID_BATTERY_REPORT_ID data).1
        CORSAIR_VOID_BATTERY_REPORT_ID data).2.1 = false := by
  constructor
  · simp [corsair_void_process_receiver]
  · simp only [raw_event_battery_full]
    generalize data.getD 2 0 = b2
    generalize data.getD 3 0 = b3
    generalize data.getD 4 0 = b4
    by_cases h : b3 = 177
    · by_cases hc : d.connected = true <;> simp [h, hc]
    · by_cases hc : d.connected = true <;>
        simp [h, hc, newBatteryData, unknownBatt]

/-- Witness for process_receiver_notify_iff: a registered battery object
plus a fresh record fires the notification, and the duplicate of the same
report does not. -/
theorem process_receiver_notify_iff_witness :
    (corsair_void_process_receiver
        { corsair_void_probe_drvdata with battery_registered := true } 50 177 1).2 = true ∧
    (corsair_void_raw_event
        (corsair_void_raw_event corsair_void_probe_drvdata
          CORSAIR_VOID_BATTERY_REPORT_ID [100, 0, 50, 177, 1]).1
        CORSAIR_VOID_BATTERY_REPORT_ID [100, 0, 50, 177, 1]).2.1 = false := by
  have h := process_receiver_notify_iff
    { corsair_void_probe_drvdata with battery_registered := true } 50 177 1
    [100, 0, 50, 177, 1]
  have h2 := process_receiver_notify_iff corsair_void_probe_drvdata 50 177 1
    [100, 0, 50, 177, 1]
  exact ⟨h.1.mpr (by decide), h2.2⟩


/-- Counterexample to claim C4: from the freshly probed (disconnected)
state, a battery report with connection code 51 and the mic bit set leaves
connected = false with mic_up = true, because no disconnect transition
fires and nothing resets the mic flag. -/
theorem connected_invariant_counterexample :
    (corsair_void_raw_event corsair_void_probe_drvdata CORSAIR_VOID_BATTERY_REPORT_ID
        [100, 0, 128, 51, 0]).1.connected = false ∧
    (corsair_void_raw_event corsair_void_probe_drvdata CORSAIR_VOID_BATTERY_REPORT_ID
        [100, 0, 128, 51, 0]).1.mic_up = true := by
  decide

/-- Claim C4 as amended: the unknown sentinels hold in the probed state and
are re-established synchronously by every Connected to Disconnected
transition, which also schedules exactly the battery removal work; battery
reports never write a nonzero headset firmware version, and a firmware
report is what repopulates the headset firmware pair. -/
theorem raw_event_disconnect_reset (d : Drvdata) (data : List Nat) :
    (corsair_void_probe_drvdata.connected = false ∧
      corsair_void_probe_drvdata.mic_up = false ∧
      corsair_void_probe_drvdata.fw_headset_major = 0 ∧
      corsair_void_probe_drvdata.fw_headset_minor = 0) ∧
    (d.connected = true → data.getD 3 0 ≠ 177 →
      corsair_void_raw_event d CORSAIR_VOID_BATTERY_REPORT_ID data =
        ({ d with
            battery_data := unknownBatt
            mic_up := false
            connected := false
            fw_headset_major := 0
            fw_headset_minor := 0 },
         decide (newBatteryData ((data.getD 2 0) &&& 127) (data.getD 3 0) (data.getD 4 0)
             ≠ d.battery_data) && d.battery_registered,
         [WorkItem.battery_remove_work])) ∧
    ((corsair_void_raw_event d CORSAIR_VOID_BATTERY_REPORT_ID data).1.fw_headset_major
        = d.fw_headset_major ∨
      (corsair_void_raw_event d CORSAIR_VOID_BATTERY_REPORT_ID data).1.fw_headset_major
        = 0) ∧
    ((corsair_void_raw_event d CORSAIR_VOID_BATTERY_REPORT_ID data).1.fw_headset_minor
        = d.fw_headset_minor ∨
      (corsair_void_raw_event d CORSAIR_VOID_BATTERY_REPORT_ID data).1.fw_headset_minor
        = 0) ∧
    (corsair_void_raw_event d CORSAIR_VOID_FIRMWARE_REPORT_ID data).1.fw_headset_major
      = data.getD 3 0 ∧
    (corsair_void_raw_event d CORSAIR_VOID_FIRMWARE_REPORT_ID data).1.fw_headset_minor
      = data.getD 4 0 := by
  refine ⟨by decide, ?_, ?_, ?_, ?_, ?_⟩
  · intro hc hconn
    rw [raw_event_battery_full, if_neg hconn, if_pos hc]
  · simp only [raw_event_battery_full]
    generalize data.getD 2 0 = b2
    generalize data.getD 3 0 = b3
    generalize data.getD 4 0 = b4
    by_cases h : b3 = 177
    · simp [h]
    · by_cases hc : d.connected = true <;> simp [h, hc]
  · simp only [raw_event_battery_full]
    generalize data.getD 2 0 = b2
    generalize data.getD 3 0 = b3
    generalize data.getD 4 0 = b4
    by_cases h : b3 = 177
    · simp [h]
    · by_cases hc : d.connected = true <;> simp [h, hc]
  · rw [raw_event_firmware_eq]
  · rw [raw_event_firmware_eq]

/-- Witness for raw_event_disconnect_reset: a connected state with stale
mic and headset firmware values is fully reset by a connection code 51
report, scheduling exactly the battery removal work. -/
theorem raw_event_disconnect_reset_witness :
    ({ corsair_void_probe_drvdata with
        connected := true
        mic_up := true
        fw_headset_major := 1
        fw_headset_minor := 22 } : Drvdata).connected = true ∧
    corsair_void_raw_event
        { corsair_void_probe_drvdata with
          connected := true
          mic_up := true
          fw_headset_major := 1
          fw_headset_minor := 22 }
        CORSAIR_VOID_BATTERY_REPORT_ID [100, 0, 200, 51, 2] =
      (corsair_void_probe_drvdata, false, [WorkItem.battery_remove_work]) := by
  refine ⟨rfl, ?_⟩
  have h := (raw_event_disconnect_reset
    { corsair_void_probe_drvdata with
      connected := true
      mic_up := true
      fw_headset_major := 1
      fw_headset_minor := 22 }
    [100, 0, 200, 51, 2]).2.1 rfl (by decide)
  exact h.trans (by decide)

/-- Counterexample to claim C5: a 6-byte battery report is not dropped:
the handler decodes bytes 2..4 and updates the device state. -/
theorem raw_event_length_counterexample :
    ([100, 0, 50, 177, 1, 99] : List Nat).length ≠ 5 ∧
    (corsair_void_raw_event corsair_void_probe_drvdata CORSAIR_VOID_BATTERY_REPORT_ID
        [100, 0, 50, 177, 1, 99]).1.battery_data.present = true ∧
    (corsair_void_raw_event corsair_void_probe_drvdata CORSAIR_VOID_BATTERY_REPORT_ID
        [100, 0, 50, 177, 1, 99]).1 ≠ corsair_void_probe_drvdata := by
  decide

/-- Claim C5 as amended: corsair_void_raw_event validates no buffer
length; even when the length differs from 5 a battery-id report is decoded
from bytes 2..4 and the battery record and connected flag are updated. -/
theorem raw_event_no_length_check (d : Drvdata) (data : List Nat)
    (_h : data.length ≠ 5) :
    (corsair_void_raw_event d CORSAIR_VOID_BATTERY_REPORT_ID data).1.battery_data =
      newBatteryData ((data.getD 2 0) &&& 127) (data.getD 3 0) (data.getD 4 0) ∧
    (corsair_void_raw_event d CORSAIR_VOID_BATTERY_REPORT_ID data).1.connected =
      (data.getD 3 0 == 177) :=
  ⟨raw_event_battery_data d data, raw_event_battery_connected d data⟩

/-- Witness for raw_event_no_length_check at a 6-byte buffer. -/
theorem raw_event_no_length_check_witness :
    ([100, 0, 50, 177, 1, 99] : List Nat).length ≠ 5 ∧
    (corsair_void_raw_event corsair_void_probe_drvdata CORSAIR_VOID_BATTERY_REPORT_ID
        [100, 0, 50, 177, 1, 99]).1.battery_data =
      newBatteryData ((([100, 0, 50, 177, 1, 99] : List Nat).getD 2 0) &&& 127)
        (([100, 0, 50, 177, 1, 99] : List Nat).getD 3 0)
        (([100, 0, 50, 177, 1, 99] : List Nat).getD 4 0) :=
  ⟨by decide,
   (raw_event_no_length_check corsair_void_probe_drvdata [100, 0, 50, 177, 1, 99]
      (by decide)).1⟩

/-- Counterexample to claim C6: a battery report carrying raw capacity 127
(bits 6..0 of byte 2) is stored as capacity 127, outside 0..100. -/
theorem capacity_above_100_counterexample :
    (corsair_void_raw_event corsair_void_probe_drvdata CORSAIR_VOID_BATTERY_REPORT_ID
        [100, 0, 127, 177, 1]).1.battery_data.capacity = 127 ∧
    ¬(corsair_void_raw_event corsair_void_probe_drvdata CORSAIR_VOID_BATTERY_REPORT_ID
        [100, 0, 127, 177, 1]).1.battery_data.capacity ≤ 100 := by
  decide

/-- Claim C6 as amended: battery capacity lies in 0..127 (the 7-bit raw
field); this holds in the probed state and is preserved by every report
processing step, but nothing clamps it to 100. -/
theorem raw_event_capacity_le_127 (d : Drvdata) (report_id : Nat) (data : List Nat)
    (h : d.battery_data.capacity ≤ 127) :
    corsair_void_probe_drvdata.battery_data.capacity ≤ 127 ∧
    (corsair_void_raw_event d report_id data).1.battery_data.capacity ≤ 127 := by
  refine ⟨by decide, ?_⟩
  by_cases hb : report_id = CORSAIR_VOID_BATTERY_REPORT_ID
  · subst hb
    rw [raw_event_battery_data]
    exact newBatteryData_capacity_le _ _ _ Nat.and_le_right
  · by_cases hf : report_id = CORSAIR_VOID_FIRMWARE_REPORT_ID
    · subst hf
      rw [raw_event_firmware_eq]
      exact h
    · rw [raw_event_other_eq d report_id data hb hf]
      exact h

/-- Witness for raw_event_capacity_le_127 at the capacity 127 report. -/
theorem raw_event_capacity_le_127_witness :
    corsair_void_probe_drvdata.battery_data.capacity ≤ 127 ∧
    (corsair_void_raw_event corsair_void_probe_drvdata CORSAIR_VOID_BATTERY_REPORT_ID
        [100, 0, 127, 177, 1]).1.battery_data.capacity ≤ 127 :=
  ⟨by decide,
   (raw_event_capacity_le_127 corsair_void_probe_drvdata CORSAIR_VOID_BATTERY_REPORT_ID
      [100, 0, 127, 177, 1] (by decide)).2⟩

/-- Claim C7: while connected, the alert encoder accepts exactly the ids
0 and 1, producing [0xCA, 0x02, alert_id], and rejects larger ids with
-EINVAL; the sidetone encoder accepts exactly levels 0..55, producing the
64-byte buffer with the fixed 11-byte header, level + 200 at index 11 and
zeros elsewhere, and rejects larger levels with -EINVAL. -/
theorem send_alert_sidetone_encoding (d : Drvdata) (hc : d.connected = true) :
    (∀ alert_id : Nat, alert_id ≤ 1 →
      (corsair_void_send_alert d alert_id).2 = .ok [0xCA, 0x02, alert_id]) ∧
    (∀ alert_id : Nat, 1 < alert_id →
      (corsair_void_send_alert d alert_id).2 = .error .invalidArgument) ∧
    (∀ sidetone : Nat, sidetone ≤ 55 →
      (corsair_void_send_sidetone d sidetone).2 =
        .ok ([0xFF, 0x0B, 0x00, 0xFF, 0x04, 0x0E, 0xFF, 0x05, 0x01, 0x04, 0x00,
              sidetone + 200] ++ List.replicate 52 0)) ∧
    (∀ sidetone : Nat, 55 < sidetone →
      (corsair_void_send_sidetone d sidetone).2 = .error .invalidArgument) := by
  refine ⟨?_, ?_, ?_, ?_⟩
  · intro a ha
    unfold corsair_void_send_alert
    rw [if_neg (by simp [hc]), if_neg (by omega)]
  · intro a ha
    unfold corsair_void_send_alert
    rw [if_neg (by simp [hc]), if_pos (by omega)]
  · intro st hst
    unfold corsair_void_send_sidetone
    rw [if_neg (by simp [hc]), if_neg (by omega)]
    rfl
  · intro st hst
    unfold corsair_void_send_sidetone
    rw [if_neg (by simp [hc]), if_pos hst]

/-- Witness for send_alert_sidetone_encoding: the boundary inputs 1, 2, 55
and 56 in a connected state. -/
theorem send_alert_sidetone_encoding_witness :
    ({ corsair_void_probe_drvdata with connected := true } : Drvdata).connected = true ∧
    (corsair_void_send_alert { corsair_void_probe_drvdata with connected := true } 1).2 =
      .ok [0xCA, 0x02, 1] ∧
    (corsair_void_send_alert { corsair_void_probe_drvdata with connected := true } 2).2 =
      .error .invalidArgument ∧
    (corsair_void_send_sidetone { corsair_void_probe_drvdata with connected := true } 55).2 =
      .ok ([0xFF, 0x0B, 0x00, 0xFF, 0x04, 0x0E, 0xFF, 0x05, 0x01, 0x04, 0x00,
            55 + 200] ++ List.replicate 52 0) ∧
    (corsair_void_send_sidetone { corsair_void_probe_drvdata with connected := true } 56).2 =
      .error .invalidArgument := by
  have h := send_alert_sidetone_encoding
    { corsair_void_probe_drvdata with connected := true } rfl
  exact ⟨rfl, h.1 1 (by decide), h.2.1 2 (by decide), h.2.2.1 55 (by decide),
         h.2.2.2 56 (by decide)⟩

/-- Claim C8: while disconnected, both command entry points fail with
-ENODEV, transmit nothing (no buffer is produced) and leave the device
state unchanged. -/
theorem not_connected_rejected (d : Drvdata) (alert_id sidetone : Nat)
    (h : d.connected = false) :
    corsair_void_send_alert d alert_id = (d, .error .notConnected) ∧
    corsair_void_send_sidetone d sidetone = (d, .error .notConnected) := by
  constructor
  · unfold corsair_void_send_alert
    rw [if_pos h]
  · unfold corsair_void_send_sidetone
    rw [if_pos h]

/-- Witness for not_connected_rejected in the probed (disconnected)
state. -/
theorem not_connected_rejected_witness :
    corsair_void_probe_drvdata.connected = false ∧
    corsair_void_send_alert corsair_void_probe_drvdata 1 =
      (corsair_void_probe_drvdata, .error .notConnected) ∧
    corsair_void_send_sidetone corsair_void_probe_drvdata 30 =
      (corsair_void_probe_drvdata, .error .notConnected) := by
  have h := not_connected_rejected corsair_void_probe_drvdata 1 30 rfl
  exact ⟨rfl, h.1, h.2⟩

end CorsairVoid
